import Mathlib

/-!
Shallow embedding of the Preventive-Maintenance (PM) scheduling engine of the
`fast` backend: the data model (`models/models.py`, `schemas.py`) and the PM
route handlers (`routes/maintenance.py`).

Timestamps are modelled as `Int` seconds since the Unix epoch; a Python
`timedelta(days = k)` is `k * 86400` seconds and `timedelta(weeks = k)` is
`k * 7 * 86400` seconds.  Pydantic partial-update schemas use `exclude_unset`,
so every updatable field is wrapped in an outer `Option` meaning
"supplied by the caller"; nullable columns keep an inner `Option` for SQL NULL.
-/

/-- Enum `FrequencyType` from `models/models.py`. -/
inductive FrequencyType where
  | DAILY
  | WEEKLY
  | MONTHLY
  | QUARTERLY
  | ANNUAL
deriving DecidableEq, Repr

/-- Enum `PMStatus` from `models/models.py`. -/
inductive PMStatus where
  | SCHEDULED
  | IN_PROGRESS
  | COMPLETED
  | CANCELLED
  | OVERDUE
deriving DecidableEq, Repr

/-- Row of the `pm_schedules` table (`models/models.py`, class `PMSchedule`).
Relationship attributes are represented by the foreign-key ids. -/
structure PMSchedule where
  id : Nat
  machine_id : Nat
  procedure_id : Nat
  user_id : Nat
  frequency : FrequencyType
  frequency_value : Int
  last_completed : Option Int
  next_due : Int
  is_active : Bool
  created_at : Int
  updated_at : Int
deriving DecidableEq, Repr

/-- Row of the `pm_executions` table (`models/models.py`, class `PMExecution`). -/
structure PMExecution where
  id : Nat
  pm_schedule_id : Nat
  executed_by_id : Nat
  status : PMStatus
  notes : Option String
  started_at : Option Int
  completed_at : Option Int
  next_due_calculated : Option Int
  created_at : Int
  updated_at : Int
deriving DecidableEq, Repr

/-- Input schema `PMExecutionCreate` (`schemas.py`): all fields of
`PMExecutionBase`, with `status` defaulting to `SCHEDULED`. -/
structure PMExecutionCreate where
  pm_schedule_id : Nat
  executed_by_id : Nat
  status : PMStatus := PMStatus.SCHEDULED
  notes : Option String := none
  started_at : Option Int := none
  completed_at : Option Int := none
  next_due_calculated : Option Int := none
deriving DecidableEq, Repr

/-- Input schema `PMExecutionUpdate` (`schemas.py`): every field optional; the
outer `Option` is "present in `dict(exclude_unset := ...)`", the inner `Option`
on nullable columns is an explicit SQL NULL value. -/
structure PMExecutionUpdate where
  pm_schedule_id : Option Nat := none
  executed_by_id : Option Nat := none
  status : Option PMStatus := none
  notes : Option (Option String) := none
  started_at : Option (Option Int) := none
  completed_at : Option (Option Int) := none
  next_due_calculated : Option (Option Int) := none
deriving DecidableEq, Repr

/-- The database session visible to the PM routes: the tables the handlers
query.  Users are opaque to the engine and represented by their ids. -/
structure DB where
  users : List Nat
  schedules : List PMSchedule
  executions : List PMExecution
deriving DecidableEq, Repr

/-- Python `timedelta(days = k)`, in seconds. -/
def timedeltaDays (k : Int) : Int :=
  k * 86400

/-- Python `timedelta(weeks = k)`, in seconds. -/
def timedeltaWeeks (k : Int) : Int :=
  k * 7 * 86400

/-- The generic field-by-field update loop of `update_pm_execution`
(`routes/maintenance.py` lines 353-354): `setattr` for every field present in
`execution_data.dict(exclude_unset=True)`. -/
def applyExecutionUpdate (e : PMExecution) (u : PMExecutionUpdate) : PMExecution :=
  { e with
    pm_schedule_id := u.pm_schedule_id.getD e.pm_schedule_id
    executed_by_id := u.executed_by_id.getD e.executed_by_id
    status := u.status.getD e.status
    notes := u.notes.getD e.notes
    started_at := u.started_at.getD e.started_at
    completed_at := u.completed_at.getD e.completed_at
    next_due_calculated := u.next_due_calculated.getD e.next_due_calculated }

/-- Handler `update_pm_execution` (`routes/maintenance.py` lines 341-378),
acting on an already-fetched execution `e` and its parent schedule `s`
(`execution.pm_schedule`).  `now` is `datetime.utcnow()`.  The completion
branch fires exactly when the caller-supplied `execution_data.status` equals
`PMStatus.COMPLETED`; it overwrites `completed_at` with `now`, copies it to the
schedule's `last_completed` and advances `next_due` by the frequency policy. -/
def update_pm_execution (e : PMExecution) (s : PMSchedule) (u : PMExecutionUpdate)
    (now : Int) : PMExecution × PMSchedule :=
  let e1 := applyExecutionUpdate e u
  if u.status = some PMStatus.COMPLETED then
    let e2 := { e1 with completed_at := some now }
    let s1 := { s with last_completed := e2.completed_at }
    let s2 :=
      match s1.frequency with
      | FrequencyType.DAILY =>
          { s1 with next_due := now + timedeltaDays s1.frequency_value }
      | FrequencyType.WEEKLY =>
          { s1 with next_due := now + timedeltaWeeks s1.frequency_value }
      | FrequencyType.MONTHLY =>
          { s1 with next_due := now + timedeltaDays (30 * s1.frequency_value) }
      | FrequencyType.QUARTERLY =>
          { s1 with next_due := now + timedeltaDays (90 * s1.frequency_value) }
      | FrequencyType.ANNUAL =>
          { s1 with next_due := now + timedeltaDays (365 * s1.frequency_value) }
    ({ e2 with updated_at := now }, { s2 with updated_at := now })
  else
    ({ e1 with updated_at := now }, s)

/-- Handler `create_pm_execution` (`routes/maintenance.py` lines 318-339):
404 when the schedule id is absent; otherwise the row is built from the payload
with `pm_schedule_id` forced to the path parameter and `executed_by_id` forced
to the authenticated user's id.  `new_id` is the generated primary key and
`now` the server-default timestamp. -/
def create_pm_execution (db : DB) (schedule_id : Nat) (execution_data : PMExecutionCreate)
    (current_user_id : Nat) (new_id : Nat) (now : Int) : Except String PMExecution :=
  match db.schedules.find? (fun s => s.id == schedule_id) with
  | none => Except.error ("PM Schedule not found")
  | some _ =>
      Except.ok
        { id := new_id
          pm_schedule_id := schedule_id
          executed_by_id := current_user_id
          status := execution_data.status
          notes := execution_data.notes
          started_at := execution_data.started_at
          completed_at := execution_data.completed_at
          next_due_calculated := execution_data.next_due_calculated
          created_at := now
          updated_at := now }

/-- Handler `delete_pm_execution` (`routes/maintenance.py` lines 380-394):
404 when the execution id is absent; otherwise a hard `db.delete` of the row. -/
def delete_pm_execution (db : DB) (execution_id : Nat) : Option DB :=
  match db.executions.find? (fun e => e.id == execution_id) with
  | none => none
  | some _ =>
      some { db with executions := db.executions.filter (fun e => e.id != execution_id) }

/-- Handler `get_overdue_schedules` (`routes/maintenance.py` lines 397-411):
filter `next_due < utcnow()` and `is_active == True`. -/
def get_overdue_schedules (db : DB) (now : Int) : List PMSchedule :=
  db.schedules.filter (fun s => decide (s.next_due < now) && s.is_active)

/-- Handler `get_upcoming_schedules` (`routes/maintenance.py` lines 413-431):
`end_date := utcnow() + timedelta(days)`, then filter
`next_due >= utcnow()`, `next_due <= end_date`, `is_active == True`. -/
def get_upcoming_schedules (db : DB) (days : Int) (now : Int) : List PMSchedule :=
  let end_date := now + timedeltaDays days
  db.schedules.filter (fun s =>
    decide (now ≤ s.next_due) && decide (s.next_due ≤ end_date) && s.is_active)

/-- Python truthiness of an `Optional[bool]` query parameter: `if overdue:`. -/
def truthyBool : Option Bool → Bool
  | none => false
  | some b => b

/-- Handler `get_pm_schedules` (`routes/maintenance.py` lines 198-219).  The
`machine_id` and `user_id` filters use Python truthiness (`if machine_id:`),
the `is_active` filter uses `is not None`, and the `overdue` filter uses
truthiness and compares only `next_due < utcnow()`. -/
def get_pm_schedules (db : DB) (machine_id : Option Nat) (user_id : Option Nat)
    (is_active : Option Bool) (overdue : Option Bool) (now : Int) : List PMSchedule :=
  let q := db.schedules
  let q :=
    match machine_id with
    | some m => if m != 0 then q.filter (fun s => s.machine_id == m) else q
    | none => q
  let q :=
    match user_id with
    | some uid => if uid != 0 then q.filter (fun s => s.user_id == uid) else q
    | none => q
  let q :=
    match is_active with
    | some b => q.filter (fun s => s.is_active == b)
    | none => q
  if truthyBool overdue then q.filter (fun s => decide (s.next_due < now)) else q

/-- Written from the spec's §4.1 contract
`advance(base, unit, multiplier)` — daily adds `multiplier` days, weekly
`7 × multiplier` days, monthly `30 × multiplier`, quarterly `90 × multiplier`,
annual `365 × multiplier` — for refinement comparison against the inline
frequency arithmetic of `update_pm_execution`. -/
def advanceSpec (base : Int) (unit : FrequencyType) (multiplier : Int) : Int :=
  match unit with
  | FrequencyType.DAILY => base + multiplier * 86400
  | FrequencyType.WEEKLY => base + multiplier * 7 * 86400
  | FrequencyType.MONTHLY => base + multiplier * 30 * 86400
  | FrequencyType.QUARTERLY => base + multiplier * 90 * 86400
  | FrequencyType.ANNUAL => base + multiplier * 365 * 86400

/-- Claim C5: `get_overdue_schedules` returns exactly the schedules with
`is_active = true` and `next_due < now`: no inactive schedule is returned and
every active schedule strictly past due is returned. -/
theorem C5_overdue_exact (db : DB) (now : Int) (s : PMSchedule) :
    s ∈ get_overdue_schedules db now ↔
      s ∈ db.schedules ∧ s.is_active = true ∧ s.next_due < now := by
  simp only [get_overdue_schedules, List.mem_filter, Bool.and_eq_true, decide_eq_true_eq]
  tauto

/-- Claim C9: `get_upcoming_schedules` returns exactly the schedules with
`is_active = true` and `now ≤ next_due ≤ now + horizon_days` (inclusive window,
horizon converted to seconds). -/
theorem C9_upcoming_exact (db : DB) (days : Int) (now : Int) (s : PMSchedule) :
    s ∈ get_upcoming_schedules db days now ↔
      s ∈ db.schedules ∧ s.is_active = true ∧
        now ≤ s.next_due ∧ s.next_due ≤ now + days * 86400 := by
  simp only [get_upcoming_schedules, timedeltaDays, List.mem_filter, Bool.and_eq_true,
    decide_eq_true_eq]
  tauto

/-- Claim C10: in `get_pm_schedules`, the `overdue = true` filter selects only
on `next_due < now` and does not restrict to active schedules: an inactive
schedule whose `next_due` is in the past is included when no `is_active`
argument is given. -/
theorem C10_overdue_filter_ignores_active (db : DB) (now : Int) (s : PMSchedule)
    (hmem : s ∈ db.schedules) (hinact : s.is_active = false) (hdue : s.next_due < now) :
    s ∈ get_pm_schedules db none none none (some true) now := by
  simp only [get_pm_schedules, truthyBool, if_pos, List.mem_filter, decide_eq_true_eq]
  exact ⟨hmem, hdue⟩

/-- Concrete inactive overdue schedule for claim C10. -/
def sC10 : PMSchedule :=
  { id := 1, machine_id := 2, procedure_id := 3, user_id := 4,
    frequency := FrequencyType.MONTHLY, frequency_value := 1,
    last_completed := none, next_due := 50, is_active := false,
    created_at := 0, updated_at := 0 }

/-- Concrete session for claim C10. -/
def dbC10 : DB :=
  { users := [4], schedules := [sC10], executions := [] }

/-- Witness for C10: the inactive schedule `sC10`, overdue at time 100, is
returned by `get_pm_schedules` with `overdue = true` and no `is_active`
filter. -/
theorem C10_overdue_filter_ignores_active_witness :
    sC10 ∈ get_pm_schedules dbC10 none none none (some true) 100 :=
  C10_overdue_filter_ignores_active dbC10 100 sC10 (by decide) (by decide) (by decide)

/-- Claim C8: a transition to `cancelled` from a non-terminal status has no
side effects on the parent schedule: `last_completed` and `next_due` are
unchanged, while the execution's status does become `CANCELLED`. -/
theorem C8_cancel_frame (e : PMExecution) (s : PMSchedule) (u : PMExecutionUpdate)
    (now : Int) (hu : u.status = some PMStatus.CANCELLED)
    (hnt : e.status ≠ PMStatus.COMPLETED ∧ e.status ≠ PMStatus.CANCELLED) :
    (update_pm_execution e s u now).2.last_completed = s.last_completed ∧
    (update_pm_execution e s u now).2.next_due = s.next_due ∧
    (update_pm_execution e s u now).1.status = PMStatus.CANCELLED := by
  simp [update_pm_execution, applyExecutionUpdate, hu]

/-- Concrete scheduled execution for claim C8. -/
def eC8 : PMExecution :=
  { id := 1, pm_schedule_id := 1, executed_by_id := 7, status := PMStatus.SCHEDULED,
    notes := none, started_at := none, completed_at := none,
    next_due_calculated := none, created_at := 0, updated_at := 0 }

/-- Concrete schedule for claim C8. -/
def sC8 : PMSchedule :=
  { id := 1, machine_id := 2, procedure_id := 3, user_id := 4,
    frequency := FrequencyType.WEEKLY, frequency_value := 2,
    last_completed := some 10, next_due := 1000, is_active := true,
    created_at := 0, updated_at := 0 }

/-- Caller input cancelling an execution, for claim C8. -/
def uC8 : PMExecutionUpdate :=
  { status := some PMStatus.CANCELLED }

/-- Witness for C8: cancelling the scheduled execution `eC8` at time 500 leaves
`sC8.last_completed` and `sC8.next_due` unchanged. -/
theorem C8_cancel_frame_witness :
    (update_pm_execution eC8 sC8 uC8 500).2.last_completed = sC8.last_completed ∧
    (update_pm_execution eC8 sC8 uC8 500).2.next_due = sC8.next_due ∧
    (update_pm_execution eC8 sC8 uC8 500).1.status = PMStatus.CANCELLED :=
  C8_cancel_frame eC8 sC8 uC8 500 rfl (by decide)

/-- Concrete execution for claim C3 (status not yet terminal). -/
def eC3 : PMExecution :=
  { id := 3, pm_schedule_id := 1, executed_by_id := 7, status := PMStatus.IN_PROGRESS,
    notes := none, started_at := some 900, completed_at := none,
    next_due_calculated := none, created_at := 0, updated_at := 0 }

/-- Concrete daily schedule with multiplier 3 for claim C3. -/
def sC3 : PMSchedule :=
  { id := 1, machine_id := 2, procedure_id := 3, user_id := 4,
    frequency := FrequencyType.DAILY, frequency_value := 3,
    last_completed := none, next_due := 500, is_active := true,
    created_at := 0, updated_at := 0 }

/-- Caller input completing an execution, for claim C3. -/
def uC3 : PMExecutionUpdate :=
  { status := some PMStatus.COMPLETED }

/-- Claim C3: the frequency advance computed at completion adds exactly `n`
days for DAILY, `7n` days for WEEKLY, `30n` for MONTHLY, `90n` for QUARTERLY
and `365n` for ANNUAL (fixed day counts, one day being 86400 seconds). -/
theorem C3_advance_day_counts (e : PMExecution) (s : PMSchedule) (u : PMExecutionUpdate)
    (now n : Int) (hn : 1 ≤ n) (hv : s.frequency_value = n)
    (hu : u.status = some PMStatus.COMPLETED) :
    (s.frequency = FrequencyType.DAILY →
      (update_pm_execution e s u now).2.next_due = now + n * 86400) ∧
    (s.frequency = FrequencyType.WEEKLY →
      (update_pm_execution e s u now).2.next_due = now + 7 * n * 86400) ∧
    (s.frequency = FrequencyType.MONTHLY →
      (update_pm_execution e s u now).2.next_due = now + 30 * n * 86400) ∧
    (s.frequency = FrequencyType.QUARTERLY →
      (update_pm_execution e s u now).2.next_due = now + 90 * n * 86400) ∧
    (s.frequency = FrequencyType.ANNUAL →
      (update_pm_execution e s u now).2.next_due = now + 365 * n * 86400) := by
  subst hv
  cases hf : s.frequency <;>
    simp [update_pm_execution, hu, hf, timedeltaDays, timedeltaWeeks] <;> ring

/-- Witness for C3 at the daily schedule `sC3` with multiplier 3 and
completion time 1000. -/
theorem C3_advance_day_counts_witness :
    (1 : Int) ≤ 3 ∧
    ((sC3.frequency = FrequencyType.DAILY →
      (update_pm_execution eC3 sC3 uC3 1000).2.next_due = 1000 + 3 * 86400) ∧
    (sC3.frequency = FrequencyType.WEEKLY →
      (update_pm_execution eC3 sC3 uC3 1000).2.next_due = 1000 + 7 * 3 * 86400) ∧
    (sC3.frequency = FrequencyType.MONTHLY →
      (update_pm_execution eC3 sC3 uC3 1000).2.next_due = 1000 + 30 * 3 * 86400) ∧
    (sC3.frequency = FrequencyType.QUARTERLY →
      (update_pm_execution eC3 sC3 uC3 1000).2.next_due = 1000 + 90 * 3 * 86400) ∧
    (sC3.frequency = FrequencyType.ANNUAL →
      (update_pm_execution eC3 sC3 uC3 1000).2.next_due = 1000 + 365 * 3 * 86400)) :=
  ⟨by decide, C3_advance_day_counts eC3 sC3 uC3 1000 3 (by decide) rfl rfl⟩

/-- Concrete weekly schedule with multiplier 2 and `next_due` 2024-01-15
(epoch seconds), for claim C1. -/
def sC1 : PMSchedule :=
  { id := 1, machine_id := 2, procedure_id := 3, user_id := 4,
    frequency := FrequencyType.WEEKLY, frequency_value := 2,
    last_completed := none, next_due := 1705276800, is_active := true,
    created_at := 0, updated_at := 0 }

/-- Concrete in-progress execution with `next_due_calculated = None`, for
claim C1. -/
def eC1 : PMExecution :=
  { id := 1, pm_schedule_id := 1, executed_by_id := 7, status := PMStatus.IN_PROGRESS,
    notes := none, started_at := some 1705600000, completed_at := none,
    next_due_calculated := none, created_at := 0, updated_at := 0 }

/-- Caller input completing an execution, for claim C1. -/
def uC1 : PMExecutionUpdate :=
  { status := some PMStatus.COMPLETED }

/-- Counterexample to C1 as stated: completing `eC1` at 2024-01-20
(1705708800) advances the schedule to 2024-02-03 (1706918400), but the
execution's `next_due_calculated` stays `none` — the handler never writes it —
so it does not equal `some Schedule.next_due`. -/
theorem C1_counterexample :
    (update_pm_execution eC1 sC1 uC1 1705708800).1.next_due_calculated = none ∧
    (update_pm_execution eC1 sC1 uC1 1705708800).2.next_due = 1706918400 ∧
    (update_pm_execution eC1 sC1 uC1 1705708800).1.next_due_calculated ≠
      some ((update_pm_execution eC1 sC1 uC1 1705708800).2.next_due) := by
  decide

/-- C1 amended: on every update whose caller-supplied status is `completed`,
the schedule's `last_completed` equals the execution's `completed_at` (both the
current time) and `next_due` equals `advance(now, frequency, frequency_value)`;
but `next_due_calculated` is not written by the engine — it merely keeps the
caller-supplied or prior value. -/
theorem C1_amended_rollforward (e : PMExecution) (s : PMSchedule) (u : PMExecutionUpdate)
    (now : Int) (hu : u.status = some PMStatus.COMPLETED) :
    (update_pm_execution e s u now).2.last_completed =
      (update_pm_execution e s u now).1.completed_at ∧
    (update_pm_execution e s u now).1.completed_at = some now ∧
    (update_pm_execution e s u now).2.next_due =
      advanceSpec now s.frequency s.frequency_value ∧
    (update_pm_execution e s u now).1.next_due_calculated =
      u.next_due_calculated.getD e.next_due_calculated := by
  refine ⟨?_, ?_, ?_, ?_⟩ <;>
    cases hf : s.frequency <;>
      simp [update_pm_execution, applyExecutionUpdate, hu, hf, advanceSpec,
        timedeltaDays, timedeltaWeeks] <;>
      ring

/-- Witness for the amended C1 at the concrete completion of `eC1`. -/
theorem C1_amended_rollforward_witness :
    (update_pm_execution eC1 sC1 uC1 1705708800).2.last_completed =
      (update_pm_execution eC1 sC1 uC1 1705708800).1.completed_at ∧
    (update_pm_execution eC1 sC1 uC1 1705708800).1.completed_at = some 1705708800 ∧
    (update_pm_execution eC1 sC1 uC1 1705708800).2.next_due =
      advanceSpec 1705708800 sC1.frequency sC1.frequency_value ∧
    (update_pm_execution eC1 sC1 uC1 1705708800).1.next_due_calculated =
      uC1.next_due_calculated.getD eC1.next_due_calculated :=
  C1_amended_rollforward eC1 sC1 uC1 1705708800 rfl

/-- Concrete weekly schedule with multiplier 2, for claim C2. -/
def sC2 : PMSchedule :=
  { id := 1, machine_id := 2, procedure_id := 3, user_id := 4,
    frequency := FrequencyType.WEEKLY, frequency_value := 2,
    last_completed := none, next_due := 1705276800, is_active := true,
    created_at := 0, updated_at := 0 }

/-- Concrete in-progress execution, for claim C2. -/
def eC2 : PMExecution :=
  { id := 2, pm_schedule_id := 1, executed_by_id := 7, status := PMStatus.IN_PROGRESS,
    notes := none, started_at := some 1705600000, completed_at := none,
    next_due_calculated := none, created_at := 0, updated_at := 0 }

/-- Caller input completing an execution and supplying `completed_at` of
2024-01-20 (1705708800), for claim C2. -/
def uC2 : PMExecutionUpdate :=
  { status := some PMStatus.COMPLETED, completed_at := some (some 1705708800) }

/-- Counterexample to C2 as stated: completing `eC2` at server time 2024-01-21
(1705795200) with caller-supplied `completed_at` 2024-01-20 does not keep the
caller's value — the handler overwrites `completed_at` with the current time
and rolls forward from it, so `next_due` is 1707004800, not 2024-02-03
(1706918400). -/
theorem C2_counterexample :
    (update_pm_execution eC2 sC2 uC2 1705795200).1.completed_at = some 1705795200 ∧
    (update_pm_execution eC2 sC2 uC2 1705795200).2.next_due = 1707004800 ∧
    ¬((update_pm_execution eC2 sC2 uC2 1705795200).1.completed_at = some 1705708800 ∧
      (update_pm_execution eC2 sC2 uC2 1705795200).2.next_due = 1706918400) := by
  decide

/-- C2 amended: on transition to `completed`, `completed_at` is always set to
the current time, discarding any caller-supplied value; for a WEEKLY schedule
with multiplier 2 the roll-forward therefore yields `next_due = now + 14`
days. -/
theorem C2_amended_completion_time (e : PMExecution) (s : PMSchedule) (u : PMExecutionUpdate)
    (now : Int) (hu : u.status = some PMStatus.COMPLETED)
    (hf : s.frequency = FrequencyType.WEEKLY) (hv : s.frequency_value = 2) :
    (update_pm_execution e s u now).1.completed_at = some now ∧
    (update_pm_execution e s u now).2.next_due = now + 14 * 86400 := by
  simp [update_pm_execution, applyExecutionUpdate, hu, hf, hv, timedeltaWeeks]

/-- Caller input completing an execution with no `completed_at`, for the C2
witness. -/
def uC2w : PMExecutionUpdate :=
  { status := some PMStatus.COMPLETED }

/-- Witness for the amended C2: completing `eC2` at 2024-01-20 gives
`completed_at` 2024-01-20 and `next_due` fourteen days later (2024-02-03). -/
theorem C2_amended_completion_time_witness :
    (update_pm_execution eC2 sC2 uC2w 1705708800).1.completed_at = some 1705708800 ∧
    (update_pm_execution eC2 sC2 uC2w 1705708800).2.next_due = 1705708800 + 14 * 86400 :=
  C2_amended_completion_time eC2 sC2 uC2w 1705708800 rfl rfl rfl

/-- Concrete schedule for claim C4. -/
def sC4 : PMSchedule :=
  { id := 1, machine_id := 2, procedure_id := 3, user_id := 4,
    frequency := FrequencyType.DAILY, frequency_value := 1,
    last_completed := none, next_due := 1000, is_active := true,
    created_at := 0, updated_at := 0 }

/-- Execution already in progress with `started_at = 100`, for claim C4. -/
def eC4 : PMExecution :=
  { id := 4, pm_schedule_id := 1, executed_by_id := 7, status := PMStatus.IN_PROGRESS,
    notes := none, started_at := some 100, completed_at := none,
    next_due_calculated := none, created_at := 0, updated_at := 0 }

/-- Caller input re-entering `in_progress` with a different `started_at`, for
claim C4. -/
def uC4 : PMExecutionUpdate :=
  { status := some PMStatus.IN_PROGRESS, started_at := some (some 200) }

/-- Scheduled execution with no `started_at`, for claim C4. -/
def eC4b : PMExecution :=
  { id := 5, pm_schedule_id := 1, executed_by_id := 7, status := PMStatus.SCHEDULED,
    notes := none, started_at := none, completed_at := none,
    next_due_calculated := none, created_at := 0, updated_at := 0 }

/-- Caller input entering `in_progress` without `started_at`, for claim C4. -/
def uC4b : PMExecutionUpdate :=
  { status := some PMStatus.IN_PROGRESS }

/-- Counterexample to C4 as stated: re-applying the `in_progress` transition to
`eC4` (whose `started_at` is already 100) with a caller-supplied value 200
overwrites `started_at`; and entering `in_progress` without a caller-supplied
`started_at` leaves it `none` rather than defaulting to the current time 500. -/
theorem C4_counterexample :
    ((update_pm_execution eC4 sC4 uC4 500).1.started_at = some 200 ∧
      eC4.started_at = some 100 ∧
      (update_pm_execution eC4 sC4 uC4 500).1.started_at ≠ eC4.started_at) ∧
    ((update_pm_execution eC4b sC4 uC4b 500).1.started_at = none ∧
      (update_pm_execution eC4b sC4 uC4b 500).1.started_at ≠ some 500) := by
  decide

/-- C4 amended: the `in_progress` transition gives `started_at` no special
handling — it becomes the caller-supplied value when present (overwriting any
existing value) and is left unchanged (no default to the current time) when
absent from caller input. -/
theorem C4_amended_started_at (e : PMExecution) (s : PMSchedule) (u : PMExecutionUpdate)
    (now : Int) (hu : u.status = some PMStatus.IN_PROGRESS) :
    (update_pm_execution e s u now).1.started_at = u.started_at.getD e.started_at := by
  simp [update_pm_execution, applyExecutionUpdate, hu]

/-- Witness for the amended C4 at the concrete re-entry of `eC4`. -/
theorem C4_amended_started_at_witness :
    (update_pm_execution eC4 sC4 uC4 500).1.started_at =
      uC4.started_at.getD eC4.started_at :=
  C4_amended_started_at eC4 sC4 uC4 500 rfl

/-- Concrete schedule for claim C6. -/
def sC6 : PMSchedule :=
  { id := 1, machine_id := 2, procedure_id := 3, user_id := 4,
    frequency := FrequencyType.DAILY, frequency_value := 1,
    last_completed := some 50, next_due := 86450, is_active := true,
    created_at := 0, updated_at := 0 }

/-- Completed (terminal) execution, for claim C6. -/
def eC6 : PMExecution :=
  { id := 1, pm_schedule_id := 1, executed_by_id := 7, status := PMStatus.COMPLETED,
    notes := none, started_at := some 40, completed_at := some 50,
    next_due_calculated := none, created_at := 0, updated_at := 0 }

/-- Caller input rewriting a terminal execution back to `scheduled`, for
claim C6. -/
def uC6 : PMExecutionUpdate :=
  { status := some PMStatus.SCHEDULED }

/-- Concrete session containing the terminal execution `eC6`, for claim C6. -/
def dbC6 : DB :=
  { users := [7], schedules := [sC6], executions := [eC6] }

/-- Counterexample to C6 as stated: the update handler rewrites the terminal
execution's status (a non-audit field) back to `scheduled`, and the delete
handler hard-deletes the terminal execution from the session. -/
theorem C6_counterexample :
    (eC6.status = PMStatus.COMPLETED ∧
      (update_pm_execution eC6 sC6 uC6 500).1.status = PMStatus.SCHEDULED) ∧
    delete_pm_execution dbC6 1 =
      some { users := [7], schedules := [sC6], executions := [] } := by
  decide

/-- C6 amended: no terminal-immutability is enforced — `update_pm_execution`
applies caller-supplied fields to a `completed` execution (here rewriting its
status), and `delete_pm_execution` removes a `completed` execution from the
store. -/
theorem C6_amended_no_immutability (e : PMExecution) (s : PMSchedule) (u : PMExecutionUpdate)
    (now : Int) (db : DB) (hterm : e.status = PMStatus.COMPLETED)
    (hu : u.status = some PMStatus.SCHEDULED) (hmem : e ∈ db.executions) :
    (update_pm_execution e s u now).1.status = PMStatus.SCHEDULED ∧
    ∃ db', delete_pm_execution db e.id = some db' ∧ e ∉ db'.executions := by
  constructor
  · simp [update_pm_execution, applyExecutionUpdate, hu]
  · cases hx : db.executions.find? (fun x => x.id == e.id) with
    | none =>
        exfalso
        have hne := List.find?_eq_none.mp hx e hmem
        simp at hne
    | some y =>
        refine ⟨{ db with executions := db.executions.filter (fun x => x.id != e.id) },
          by simp [delete_pm_execution, hx], ?_⟩
        intro hcontra
        have h2 := (List.mem_filter.mp hcontra).2
        simp at h2

/-- Witness for the amended C6 at the concrete terminal execution `eC6`. -/
theorem C6_amended_no_immutability_witness :
    (update_pm_execution eC6 sC6 uC6 500).1.status = PMStatus.SCHEDULED ∧
    ∃ db', delete_pm_execution dbC6 eC6.id = some db' ∧ eC6 ∉ db'.executions :=
  C6_amended_no_immutability eC6 sC6 uC6 500 dbC6 rfl rfl (by decide)

/-- Concrete schedule with id 1, for claim C7. -/
def sC7 : PMSchedule :=
  { id := 1, machine_id := 2, procedure_id := 3, user_id := 4,
    frequency := FrequencyType.DAILY, frequency_value := 1,
    last_completed := none, next_due := 1000, is_active := true,
    created_at := 0, updated_at := 0 }

/-- Concrete session whose user table contains only user 7, for claim C7. -/
def dbC7 : DB :=
  { users := [7], schedules := [sC7], executions := [] }

/-- Creation payload whose `executed_by_id` (999) references no existing user,
for claim C7. -/
def dataC7 : PMExecutionCreate :=
  { pm_schedule_id := 1, executed_by_id := 999 }

/-- Counterexample to C7 as stated: creating an execution whose payload
`executed_by_id` (999) references no existing user does not fail with
`NotFound` — it succeeds, with `executed_by_id` silently replaced by the
authenticated caller's id (7). -/
theorem C7_counterexample :
    dataC7.executed_by_id ∉ dbC7.users ∧
    create_pm_execution dbC7 1 dataC7 7 42 1000 =
      Except.ok
        { id := 42, pm_schedule_id := 1, executed_by_id := 7,
          status := PMStatus.SCHEDULED, notes := none, started_at := none,
          completed_at := none, next_due_calculated := none,
          created_at := 1000, updated_at := 1000 } :=
  ⟨by decide, rfl⟩

/-- C7 amended: creation fails with `NotFound` exactly when the referenced
schedule does not exist; the payload's `executed_by_id` is never checked
against the user table — on success the stored `executed_by_id` is the
authenticated caller's id, the schedule id is the path parameter, and the
status is the payload status (default `scheduled`). -/
theorem C7_amended_create (db : DB) (schedule_id : Nat) (data : PMExecutionCreate)
    (cu nid : Nat) (now : Int) (hs : data.status = PMStatus.SCHEDULED) :
    ((create_pm_execution db schedule_id data cu nid now =
        Except.error ("PM Schedule not found")) ↔
      ∀ s ∈ db.schedules, s.id ≠ schedule_id) ∧
    (∀ ex, create_pm_execution db schedule_id data cu nid now = Except.ok ex →
      ex.executed_by_id = cu ∧ ex.pm_schedule_id = schedule_id ∧
        ex.status = PMStatus.SCHEDULED) := by
  constructor
  · cases hx : db.schedules.find? (fun s => s.id == schedule_id) with
    | none =>
        simp only [create_pm_execution, hx]
        constructor
        · intro _ s hmem
          have hne := List.find?_eq_none.mp hx s hmem
          simpa using hne
        · intro _
          trivial
    | some y =>
        simp only [create_pm_execution, hx]
        constructor
        · intro hcontra
          simp at hcontra
        · intro hall
          exfalso
          have hy := List.find?_some hx
          have hmem := List.mem_of_find?_eq_some hx
          exact hall y hmem (by simpa using hy)
  · intro ex hok
    cases hx : db.schedules.find? (fun s => s.id == schedule_id) with
    | none => simp [create_pm_execution, hx] at hok
    | some y =>
        simp only [create_pm_execution, hx] at hok
        injection hok with h
        subst h
        exact ⟨rfl, rfl, hs⟩

/-- Witness for the amended C7 at the concrete session `dbC7`. -/
theorem C7_amended_create_witness :
    dataC7.status = PMStatus.SCHEDULED ∧
    (((create_pm_execution dbC7 1 dataC7 7 42 1000 =
        Except.error ("PM Schedule not found")) ↔
      ∀ s ∈ dbC7.schedules, s.id ≠ 1) ∧
    (∀ ex, create_pm_execution dbC7 1 dataC7 7 42 1000 = Except.ok ex →
      ex.executed_by_id = 7 ∧ ex.pm_schedule_id = 1 ∧
        ex.status = PMStatus.SCHEDULED)) :=
  ⟨rfl, C7_amended_create dbC7 1 dataC7 7 42 1000 rfl⟩
